import Mathlib

/-!
A shallow embedding of the two-stage pregnancy risk-classification pipeline
implemented by `api_predict` in `src/main.py` of the CareBloom repository.

Modelling decisions:
* Python floats are modelled as rationals (`ℚ`); the arithmetic the pipeline
  performs (a linear Fahrenheit conversion and a percentage formatting) is
  exact on the inputs the claims mention.
* The opaque scaler/model artifacts are modelled as function-valued handles
  (`Scaler`, `Model`) whose calls may fail (`Except String`), covering the
  model-unavailable case.
* Pandas data frames are modelled as association lists `List (String × ℚ)`
  (column name paired with the row value), keeping the exact column names and
  their order observable.
* Every call into a scaler or model handle is recorded in an explicit trace
  (`List ModelCall`), so that claims of the form "Stage B is never invoked"
  are provable statements about the trace.
* The external Groq plan generator is an opaque collaborator
  `String → String → Except String HealthPlan`.
-/

namespace CareBloom

/-- The request schema of the `/api/predict` endpoint: the `PredictionRequest`
pydantic model of `src/main.py`, seventeen required numeric fields. -/
structure PredictionRequest where
  Age : ℚ
  SystolicBP : ℚ
  DiastolicBP : ℚ
  BS : ℚ
  BodyTemp : ℚ
  HeartRate : ℚ
  PulsePressure : ℚ
  gravida : ℚ
  parity : ℚ
  gestational_age_weeks : ℚ
  BMI : ℚ
  diabetes : ℤ
  hypertension : ℤ
  HB : ℚ
  fetal_weight : ℚ
  Protien_Uria : ℤ
  amniotic_fluid_levels : ℚ

/-- An opaque scaler handle: `transform` receives a one-row named data frame
and yields the scaled numeric row, or fails (e.g. the artifact never loaded). -/
structure Scaler where
  transform : List (String × ℚ) → Except String (List ℚ)

/-- An opaque classifier handle: `predict` yields the integer class id of the
single row, `predict_proba` yields the probability vector of that row. -/
structure Model where
  predict : List ℚ → Except String ℤ
  predict_proba : List ℚ → Except String (List ℚ)

/-- Line 300 of `src/main.py`: `body_temp_fahrenheit = (data.BodyTemp * 9 / 5) + 32`. -/
def body_temp_fahrenheit (c : ℚ) : ℚ := c * 9 / 5 + 32

/-- Line 309: `risk_map = {1: "low risk", 2: "mid risk", 0: "high risk"}`,
read with `.get(risk_pred, "unknown")` (line 310). -/
def risk_map (i : ℤ) : String :=
  if i = 1 then "low risk"
  else if i = 2 then "mid risk"
  else if i = 0 then "high risk"
  else "unknown"

/-- Line 332: `disease_map = {1: "low", 2: "mid", 0: "high"}`, read with
`.get(disease_pred, "unknown")` (line 333). -/
def disease_map (i : ℤ) : String :=
  if i = 1 then "low"
  else if i = 2 then "mid"
  else if i = 0 then "high"
  else "unknown"

/-- Lines 303-306: the one-row Stage-A data frame, values in the listed order
under the listed column names. -/
def x_a (data : PredictionRequest) : List (String × ℚ) :=
  [("Age", data.Age), ("SystolicBP", data.SystolicBP),
   ("DiastolicBP", data.DiastolicBP), ("BS", data.BS),
   ("BodyTemp", body_temp_fahrenheit data.BodyTemp),
   ("HeartRate", data.HeartRate), ("PulsePressure", data.PulsePressure)]

/-- Lines 316-320: the trained Stage-B feature names, exactly as written in
the source (including the double space in the BMI column name). -/
def FEATURES_B : List String :=
  ["gravida", "parity", "gestational age (weeks)", "Age (yrs)", "BMI  [kg/m²]",
   "diabetes", "History of hypertension (y/n)", "Systolic BP", "Diastolic BP",
   "HB", "fetal weight(kgs)", "Protien Uria", "amniotic fluid levels(cm)"]

/-- Lines 321-325: the Stage-B row values in source order. -/
def x_b_values (data : PredictionRequest) : List ℚ :=
  [data.gravida, data.parity, data.gestational_age_weeks, data.Age, data.BMI,
   (data.diabetes : ℚ), (data.hypertension : ℚ), data.SystolicBP, data.DiastolicBP,
   data.HB, data.fetal_weight, (data.Protien_Uria : ℚ), data.amniotic_fluid_levels]

/-- The one-row Stage-B data frame: the trained column names paired with the
row values. -/
def x_b (data : PredictionRequest) : List (String × ℚ) :=
  FEATURES_B.zip (x_b_values data)

/-- Numpy-style indexing `xs[i]` with an integer index: negative indices count
from the end, an out-of-range index raises (modelled as an error). -/
def npIndex (xs : List ℚ) (i : ℤ) : Except String ℚ :=
  if 0 ≤ (if i < 0 then i + xs.length else i) then
    match xs.get? (if i < 0 then i + xs.length else i).toNat with
    | some v => Except.ok v
    | none => Except.error "IndexError"
  else Except.error "IndexError"

/-- Round a rational to the nearest integer, ties to the even integer — the
rounding rule of Python `format`. -/
def roundHalfEven (q : ℚ) : ℤ :=
  if q - (⌊q⌋ : ℚ) < 1 / 2 then ⌊q⌋
  else if (1 : ℚ) / 2 < q - (⌊q⌋ : ℚ) then ⌊q⌋ + 1
  else if ⌊q⌋ % 2 = 0 then ⌊q⌋ else ⌊q⌋ + 1

/-- Python `f"{x:.1f}"`: fixed-point formatting with one decimal digit. -/
def format1f (x : ℚ) : String :=
  if roundHalfEven (x * 10) < 0 then
    "-" ++ toString (-roundHalfEven (x * 10) / 10) ++ "." ++
      toString (-roundHalfEven (x * 10) % 10)
  else
    toString (roundHalfEven (x * 10) / 10) ++ "." ++
      toString (roundHalfEven (x * 10) % 10)

/-- Line 334: `f"{p * 100:.1f}%"` — the probability entry rendered as a
percentage string with one decimal place. -/
def formatPct (p : ℚ) : String := format1f (p * 100) ++ "%"

/-- The structured health plan returned by `generate_health_plan`
(lines 112-192): three lists of strings. -/
structure HealthPlan where
  diet_suggestions : List String
  rest_hydration_plan : List String
  weekly_checkup_reminders : List String

/-- Lines 176-192: the fixed safe-default plan substituted when the external
generation call fails, with the exact strings of the source. -/
def fallback_plan : HealthPlan :=
  { diet_suggestions :=
      ["Eat balanced meals with fruits, vegetables, whole grains, and lean protein.",
       "Avoid very salty, fried, or highly processed foods when possible.",
       "Have smaller, frequent meals if you feel nauseous or uncomfortable."],
    rest_hydration_plan :=
      ["Aim for regular sleep and short rest breaks during the day.",
       "Drink water regularly throughout the day to stay hydrated.",
       "Avoid long periods of standing or heavy physical strain without breaks."],
    weekly_checkup_reminders :=
      ["Follow your doctor’s schedule for prenatal visits and tests.",
       "Note any new symptoms like severe headache, vision changes, or strong pain and share them with your doctor.",
       "If you feel something is not right, contact your healthcare provider rather than waiting for the next visit."] }

/-- Lines 112-192, `generate_health_plan`: call the external generator; on any
failure return the fixed safe-default plan (the body is one big `try/except`
whose `except` branch returns `fallback_plan`). -/
def generate_health_plan (gen : String → String → Except String HealthPlan)
    (risk_level : String) (disease_status : String) : HealthPlan :=
  match gen risk_level disease_status with
  | Except.ok plan => plan
  | Except.error _ => fallback_plan

/-- The classification part of the response dict built at lines 312-337. -/
structure ClassifyResult where
  Risk_Level : String
  Disease_Status : String
  Disease_Probability : String

/-- The full success payload of `/api/predict` (lines 312-343). -/
structure PredictResult where
  Risk_Level : String
  Disease_Status : String
  Disease_Probability : String
  Health_Plan : HealthPlan

/-- The endpoint response: either the full success payload, or the explicit
error payload `{"error": str(e)}` produced by the `except` branch
(lines 345-346) or by request validation. -/
inductive ApiResponse where
  | ok (res : PredictResult) : ApiResponse
  | error (msg : String) : ApiResponse

/-- One call into a scaler or model handle, recorded in order of occurrence. -/
inductive ModelCall where
  | transformA (frame : List (String × ℚ)) : ModelCall
  | predictA (row : List ℚ) : ModelCall
  | transformB (frame : List (String × ℚ)) : ModelCall
  | predictB (row : List ℚ) : ModelCall
  | predict_probaB (row : List ℚ) : ModelCall

/-- Is this call an invocation of `ScalerB.transform`? -/
def isTransformB : ModelCall → Bool
  | ModelCall.transformB _ => true
  | _ => false

/-- Is this call an invocation of any Stage-B collaborator
(`ScalerB.transform`, `ModelB.predict`, `ModelB.predict_proba`)? -/
def isStageB : ModelCall → Bool
  | ModelCall.transformB _ => true
  | ModelCall.predictB _ => true
  | ModelCall.predict_probaB _ => true
  | _ => false

/-- Lines 300-337 of `src/main.py`: the two-stage classification pipeline.
Stage A always runs; Stage B runs only when Stage A's label is exactly
"high risk". The second component is the trace of scaler/model calls made.
A failing call short-circuits (the surrounding `try/except` turns the raised
exception into the error payload, see `api_predict`). -/
def classify (scaler_a : Scaler) (model_a : Model) (scaler_b : Scaler) (model_b : Model)
    (data : PredictionRequest) : Except String ClassifyResult × List ModelCall :=
  match scaler_a.transform (x_a data) with
  | Except.error e => (Except.error e, [ModelCall.transformA (x_a data)])
  | Except.ok va =>
    match model_a.predict va with
    | Except.error e =>
        (Except.error e, [ModelCall.transformA (x_a data), ModelCall.predictA va])
    | Except.ok risk_pred =>
      if risk_map risk_pred = "high risk" then
        match scaler_b.transform (x_b data) with
        | Except.error e =>
            (Except.error e,
             [ModelCall.transformA (x_a data), ModelCall.predictA va,
              ModelCall.transformB (x_b data)])
        | Except.ok vb =>
          match model_b.predict vb with
          | Except.error e =>
              (Except.error e,
               [ModelCall.transformA (x_a data), ModelCall.predictA va,
                ModelCall.transformB (x_b data), ModelCall.predictB vb])
          | Except.ok disease_pred =>
            match model_b.predict_proba vb with
            | Except.error e =>
                (Except.error e,
                 [ModelCall.transformA (x_a data), ModelCall.predictA va,
                  ModelCall.transformB (x_b data), ModelCall.predictB vb,
                  ModelCall.predict_probaB vb])
            | Except.ok disease_proba =>
              match npIndex disease_proba disease_pred with
              | Except.error e =>
                  (Except.error e,
                   [ModelCall.transformA (x_a data), ModelCall.predictA va,
                    ModelCall.transformB (x_b data), ModelCall.predictB vb,
                    ModelCall.predict_probaB vb])
              | Except.ok p =>
                  (Except.ok
                     { Risk_Level := risk_map risk_pred,
                       Disease_Status := disease_map disease_pred,
                       Disease_Probability := formatPct p },
                   [ModelCall.transformA (x_a data), ModelCall.predictA va,
                    ModelCall.transformB (x_b data), ModelCall.predictB vb,
                    ModelCall.predict_probaB vb])
      else
        (Except.ok { Risk_Level := risk_map risk_pred,
                     Disease_Status := "N/A", Disease_Probability := "0%" },
         [ModelCall.transformA (x_a data), ModelCall.predictA va])

/-- Lines 297-346, the `/api/predict` handler: run the pipeline; on success
attach the health plan (lines 339-341) and return the payload; any raised
exception becomes the error payload (lines 345-346). -/
def api_predict (scaler_a : Scaler) (model_a : Model) (scaler_b : Scaler) (model_b : Model)
    (gen : String → String → Except String HealthPlan)
    (data : PredictionRequest) : ApiResponse × List ModelCall :=
  match classify scaler_a model_a scaler_b model_b data with
  | (Except.error e, tr) => (ApiResponse.error e, tr)
  | (Except.ok c, tr) =>
      (ApiResponse.ok
         { Risk_Level := c.Risk_Level, Disease_Status := c.Disease_Status,
           Disease_Probability := c.Disease_Probability,
           Health_Plan := generate_health_plan gen c.Risk_Level c.Disease_Status },
       tr)

/-- A raw request before validation: each field may be absent. -/
structure RawRequest where
  Age : Option ℚ
  SystolicBP : Option ℚ
  DiastolicBP : Option ℚ
  BS : Option ℚ
  BodyTemp : Option ℚ
  HeartRate : Option ℚ
  PulsePressure : Option ℚ
  gravida : Option ℚ
  parity : Option ℚ
  gestational_age_weeks : Option ℚ
  BMI : Option ℚ
  diabetes : Option ℤ
  hypertension : Option ℤ
  HB : Option ℚ
  fetal_weight : Option ℚ
  Protien_Uria : Option ℤ
  amniotic_fluid_levels : Option ℚ

/-- Modelled from the spec: the request validation performed by the service
framework on the declared `PredictionRequest` schema (every field required,
a missing or mistyped field is an `InputShapeError` rejected with an explicit
error payload before the pipeline runs); the validation itself is framework
behaviour and not part of `src/`. -/
def parseRequest (r : RawRequest) : Except String PredictionRequest :=
  match r.Age, r.SystolicBP, r.DiastolicBP, r.BS, r.BodyTemp, r.HeartRate,
        r.PulsePressure, r.gravida, r.parity, r.gestational_age_weeks, r.BMI,
        r.diabetes, r.hypertension, r.HB, r.fetal_weight, r.Protien_Uria,
        r.amniotic_fluid_levels with
  | some a1, some a2, some a3, some a4, some a5, some a6, some a7, some a8,
    some a9, some a10, some a11, some a12, some a13, some a14, some a15,
    some a16, some a17 =>
      Except.ok ⟨a1, a2, a3, a4, a5, a6, a7, a8, a9, a10, a11, a12, a13, a14,
                 a15, a16, a17⟩
  | _, _, _, _, _, _, _, _, _, _, _, _, _, _, _, _, _ =>
      Except.error "field required"

/-- The endpoint as seen by the caller: validate the raw request, then run the
pipeline; a validation failure is an explicit error payload and the pipeline
never runs. -/
def api_endpoint (scaler_a : Scaler) (model_a : Model) (scaler_b : Scaler) (model_b : Model)
    (gen : String → String → Except String HealthPlan)
    (raw : RawRequest) : ApiResponse × List ModelCall :=
  match parseRequest raw with
  | Except.error e => (ApiResponse.error e, [])
  | Except.ok data => api_predict scaler_a model_a scaler_b model_b gen data

/-! Concrete fixtures used to exercise the theorems below on closed inputs. -/

/-- A scaler handle that always succeeds, returning the one-element row `[0]`. -/
def okScaler : Scaler := ⟨fun _ => Except.ok [0]⟩

/-- A model handle that always predicts class id 0 ("high risk" / "high"). -/
def zeroModel : Model := ⟨fun _ => Except.ok 0, fun _ => Except.ok [1, 0, 0]⟩

/-- A model handle that always predicts class id 1 ("low risk" / "low"). -/
def oneModel : Model := ⟨fun _ => Except.ok 1, fun _ => Except.ok [0, 1, 0]⟩

/-- A Stage-B model predicting class id 2 with probability 0.657 at index 2
(the end-to-end scenario of the specification). -/
def midModelB : Model :=
  ⟨fun _ => Except.ok 2, fun _ => Except.ok [343 / 2000, 343 / 2000, 657 / 1000]⟩

/-- A plan generator that always succeeds with a small fixed plan. -/
def okGen : String → String → Except String HealthPlan :=
  fun _ _ => Except.ok ⟨["d"], ["r"], ["w"]⟩

/-- A plan generator that always fails. -/
def failGen : String → String → Except String HealthPlan :=
  fun _ _ => Except.error "boom"

/-- A concrete valid request (the vitals of the specification's end-to-end
scenarios, with arbitrary valid Stage-B fields). -/
def sampleData : PredictionRequest :=
  ⟨28, 110, 70, 90, 37, 80, 40, 2, 1, 30, 24, 0, 0, 11, 3, 0, 12⟩

/-- A raw request with every field absent. -/
def rawNone : RawRequest :=
  ⟨none, none, none, none, none, none, none, none, none, none, none, none,
   none, none, none, none, none⟩

/-- The raw request whose validated form is `sampleData`. -/
def rawSample : RawRequest :=
  ⟨some 28, some 110, some 70, some 90, some 37, some 80, some 40, some 2,
   some 1, some 30, some 24, some 0, some 0, some 11, some 3, some 0, some 12⟩

/-- A Stage-B model handle that predicts class id 0 but whose probability
call always fails (e.g. a partially loaded artifact). -/
def noProbaModel : Model :=
  ⟨fun _ => Except.ok 0, fun _ => Except.error "proba unavailable"⟩

/-! Helper lemmas about the pipeline, shared by the claim theorems. -/

/-- When Stage A succeeds with a label other than "high risk", the pipeline
stops after Stage A with the fixed "N/A" / "0%" fields. -/
theorem classify_not_high (sA : Scaler) (mA : Model) (sB : Scaler) (mB : Model)
    (data : PredictionRequest) (va : List ℚ) (rp : ℤ)
    (hA : sA.transform (x_a data) = Except.ok va)
    (hP : mA.predict va = Except.ok rp)
    (hlab : risk_map rp ≠ "high risk") :
    classify sA mA sB mB data =
      (Except.ok ⟨risk_map rp, "N/A", "0%"⟩,
       [ModelCall.transformA (x_a data), ModelCall.predictA va]) := by
  unfold classify
  simp only [hA, hP, if_neg hlab]

/-- When Stage A succeeds with label "high risk", the trace contains exactly
one `ScalerB.transform` call, and its argument is the Stage-B frame. -/
theorem classify_high_filter (sA : Scaler) (mA : Model) (sB : Scaler) (mB : Model)
    (data : PredictionRequest) (va : List ℚ) (rp : ℤ)
    (hA : sA.transform (x_a data) = Except.ok va)
    (hP : mA.predict va = Except.ok rp)
    (hlab : risk_map rp = "high risk") :
    (classify sA mA sB mB data).snd.filter isTransformB
      = [ModelCall.transformB (x_b data)] := by
  unfold classify
  simp only [hA, hP, if_pos hlab]
  cases hB : sB.transform (x_b data) with
  | error e => simp [isTransformB]
  | ok vb =>
    dsimp only
    cases hPB : mB.predict vb with
    | error e => simp [hPB, isTransformB]
    | ok d =>
      dsimp only
      cases hProba : mB.predict_proba vb with
      | error e => simp [hPB, hProba, isTransformB]
      | ok probs =>
        dsimp only
        cases hIdx : npIndex probs d with
        | error e => simp [hPB, hProba, hIdx, isTransformB]
        | ok p => simp [hPB, hProba, hIdx, isTransformB]

/-- The full "high risk" success path of the pipeline. -/
theorem classify_high_ok (sA : Scaler) (mA : Model) (sB : Scaler) (mB : Model)
    (data : PredictionRequest) (va vb : List ℚ) (rp d : ℤ) (probs : List ℚ) (p : ℚ)
    (hA : sA.transform (x_a data) = Except.ok va)
    (hP : mA.predict va = Except.ok rp)
    (hlab : risk_map rp = "high risk")
    (hB : sB.transform (x_b data) = Except.ok vb)
    (hPB : mB.predict vb = Except.ok d)
    (hProba : mB.predict_proba vb = Except.ok probs)
    (hIdx : npIndex probs d = Except.ok p) :
    classify sA mA sB mB data =
      (Except.ok ⟨risk_map rp, disease_map d, formatPct p⟩,
       [ModelCall.transformA (x_a data), ModelCall.predictA va,
        ModelCall.transformB (x_b data), ModelCall.predictB vb,
        ModelCall.predict_probaB vb]) := by
  unfold classify
  simp only [hA, hP, if_pos hlab, hB, hPB, hProba, hIdx]

/-- Whatever the handles do, the trace starts with the Stage-A transform call
on the Stage-A frame. -/
theorem classify_snd_head (sA : Scaler) (mA : Model) (sB : Scaler) (mB : Model)
    (data : PredictionRequest) :
    ∃ rest, (classify sA mA sB mB data).snd
      = ModelCall.transformA (x_a data) :: rest := by
  unfold classify
  cases hA : sA.transform (x_a data) with
  | error e => exact ⟨[], rfl⟩
  | ok va =>
    dsimp only
    cases hP : mA.predict va with
    | error e => exact ⟨_, rfl⟩
    | ok rp =>
      dsimp only
      by_cases hlab : risk_map rp = "high risk"
      · simp only [if_pos hlab]
        cases hB : sB.transform (x_b data) with
        | error e => exact ⟨_, rfl⟩
        | ok vb =>
          dsimp only
          cases hPB : mB.predict vb with
          | error e => exact ⟨_, rfl⟩
          | ok d =>
            dsimp only
            cases hProba : mB.predict_proba vb with
            | error e => exact ⟨_, rfl⟩
            | ok probs =>
              dsimp only
              cases hIdx : npIndex probs d with
              | error e => exact ⟨_, rfl⟩
              | ok p => exact ⟨_, rfl⟩
      · simp only [if_neg hlab]
        exact ⟨_, rfl⟩

/-- The endpoint handler does not change the call trace of the pipeline. -/
theorem api_predict_snd (sA : Scaler) (mA : Model) (sB : Scaler) (mB : Model)
    (gen : String → String → Except String HealthPlan) (data : PredictionRequest) :
    (api_predict sA mA sB mB gen data).snd = (classify sA mA sB mB data).snd := by
  unfold api_predict
  cases h : classify sA mA sB mB data with
  | mk r tr => cases r <;> rfl

/-- A successful pipeline run is returned with the health plan attached. -/
theorem api_predict_of_classify_ok (sA : Scaler) (mA : Model) (sB : Scaler) (mB : Model)
    (gen : String → String → Except String HealthPlan) (data : PredictionRequest)
    (c : ClassifyResult) (tr : List ModelCall)
    (h : classify sA mA sB mB data = (Except.ok c, tr)) :
    api_predict sA mA sB mB gen data =
      (ApiResponse.ok ⟨c.Risk_Level, c.Disease_Status, c.Disease_Probability,
        generate_health_plan gen c.Risk_Level c.Disease_Status⟩, tr) := by
  unfold api_predict
  rw [h]

/-- A failing pipeline run is returned as the explicit error payload. -/
theorem api_predict_of_classify_error (sA : Scaler) (mA : Model) (sB : Scaler) (mB : Model)
    (gen : String → String → Except String HealthPlan) (data : PredictionRequest)
    (e : String) (tr : List ModelCall)
    (h : classify sA mA sB mB data = (Except.error e, tr)) :
    api_predict sA mA sB mB gen data = (ApiResponse.error e, tr) := by
  unfold api_predict
  rw [h]

/-- Any failing pipeline run — whichever step raised — surfaces as the
explicit error payload of the endpoint. -/
theorem api_predict_fst_error (sA : Scaler) (mA : Model) (sB : Scaler) (mB : Model)
    (gen : String → String → Except String HealthPlan) (data : PredictionRequest)
    (e : String) (h : (classify sA mA sB mB data).fst = Except.error e) :
    (api_predict sA mA sB mB gen data).fst = ApiResponse.error e := by
  unfold api_predict
  rcases hc : classify sA mA sB mB data with ⟨r, tr⟩
  rw [hc] at h
  cases r with
  | error e2 =>
    have he : e2 = e := by simpa using h
    subst he
    rfl
  | ok c => simp at h

/-- If the Stage-A scaler handle fails (e.g. the artifact never loaded), the
pipeline fails with that error before any model prediction. -/
theorem classify_stage_a_unavailable (sA : Scaler) (mA : Model) (sB : Scaler) (mB : Model)
    (data : PredictionRequest) (e : String)
    (hs : sA.transform (x_a data) = Except.error e) :
    classify sA mA sB mB data
      = (Except.error e, [ModelCall.transformA (x_a data)]) := by
  unfold classify
  simp only [hs]

/-- `0.8342` renders as `"83.4%"`. -/
theorem formatPct_eval_8342 : formatPct (8342 / 10000) = "83.4%" := by
  unfold formatPct format1f
  have h : roundHalfEven (8342 / 10000 * 100 * 10) = 834 := by
    have hq : (8342 / 10000 : ℚ) * 100 * 10 = 4171 / 5 := by norm_num
    rw [hq]
    unfold roundHalfEven
    have hf : ⌊(4171 / 5 : ℚ)⌋ = 834 := by norm_num
    rw [hf]
    rw [if_pos (by norm_num : (4171 / 5 : ℚ) - ((834 : ℤ) : ℚ) < 1 / 2)]
  rw [h]
  decide

/-- `0.657` renders as `"65.7%"`. -/
theorem formatPct_eval_657 : formatPct (657 / 1000) = "65.7%" := by
  unfold formatPct format1f
  have h : roundHalfEven (657 / 1000 * 100 * 10) = 657 := by
    have hq : (657 / 1000 : ℚ) * 100 * 10 = 657 := by norm_num
    rw [hq]
    unfold roundHalfEven
    have hf : ⌊(657 : ℚ)⌋ = 657 := by norm_num
    rw [hf]
    rw [if_pos (by norm_num : (657 : ℚ) - ((657 : ℤ) : ℚ) < 1 / 2)]
  rw [h]
  decide

/-! The claim theorems. -/

/-- C1: for every input record for which Stage A's predicted risk label is
anything other than "high risk", the endpoint returns
Disease_Status = "N/A" and Disease_Probability = "0%", and Stage B
(`ScalerB.transform`, `ModelB.predict`, `ModelB.predict_proba`) is never
invoked: the call trace contains no Stage-B call. -/
theorem c1_non_high_risk_skips_stage_b (sA : Scaler) (mA : Model) (sB : Scaler)
    (mB : Model) (gen : String → String → Except String HealthPlan)
    (data : PredictionRequest) (va : List ℚ) (rp : ℤ)
    (hA : sA.transform (x_a data) = Except.ok va)
    (hP : mA.predict va = Except.ok rp)
    (hlab : risk_map rp ≠ "high risk") :
    (api_predict sA mA sB mB gen data).fst =
      ApiResponse.ok ⟨risk_map rp, "N/A", "0%",
        generate_health_plan gen (risk_map rp) "N/A"⟩ ∧
    (api_predict sA mA sB mB gen data).snd.filter isStageB = [] := by
  have hc := classify_not_high sA mA sB mB data va rp hA hP hlab
  constructor
  · rw [api_predict_of_classify_ok sA mA sB mB gen data _ _ hc]
  · rw [api_predict_snd, congrArg Prod.snd hc]
    rfl

/-- C1 witness: a Stage-A model predicting class id 1 ("low risk") yields the
"N/A" / "0%" payload with an empty Stage-B trace. -/
theorem c1_witness :
    (api_predict okScaler oneModel okScaler oneModel okGen sampleData).fst =
      ApiResponse.ok ⟨risk_map 1, "N/A", "0%",
        generate_health_plan okGen (risk_map 1) "N/A"⟩ ∧
    (api_predict okScaler oneModel okScaler oneModel okGen sampleData).snd.filter
      isStageB = [] :=
  c1_non_high_risk_skips_stage_b okScaler oneModel okScaler oneModel okGen
    sampleData [0] 1 rfl rfl (by decide)

/-- C2: for every input record for which Stage A's predicted risk label is
exactly "high risk", exactly one `ScalerB.transform` call is made, passing the
13-element feature vector under the exact trained-feature names (including
"Age (yrs)" and "BMI  [kg/m²]" with two spaces) in the fixed column order. -/
theorem c2_high_risk_invokes_stage_b_once (sA : Scaler) (mA : Model) (sB : Scaler)
    (mB : Model) (gen : String → String → Except String HealthPlan)
    (data : PredictionRequest) (va : List ℚ) (rp : ℤ)
    (hA : sA.transform (x_a data) = Except.ok va)
    (hP : mA.predict va = Except.ok rp)
    (hlab : risk_map rp = "high risk") :
    (api_predict sA mA sB mB gen data).snd.filter isTransformB =
      [ModelCall.transformB (List.zip
        ["gravida", "parity", "gestational age (weeks)", "Age (yrs)",
         "BMI  [kg/m²]", "diabetes", "History of hypertension (y/n)",
         "Systolic BP", "Diastolic BP", "HB", "fetal weight(kgs)",
         "Protien Uria", "amniotic fluid levels(cm)"]
        [data.gravida, data.parity, data.gestational_age_weeks, data.Age,
         data.BMI, (data.diabetes : ℚ), (data.hypertension : ℚ),
         data.SystolicBP, data.DiastolicBP, data.HB, data.fetal_weight,
         (data.Protien_Uria : ℚ), data.amniotic_fluid_levels])] ∧
    (x_b data).length = 13 := by
  refine ⟨?_, rfl⟩
  rw [api_predict_snd, classify_high_filter sA mA sB mB data va rp hA hP hlab]
  rfl

/-- C2 witness: with a Stage-A model predicting class id 0 ("high risk"),
exactly one Stage-B transform call is made with the named 13-element frame. -/
theorem c2_witness :
    (api_predict okScaler zeroModel okScaler zeroModel okGen sampleData).snd.filter
      isTransformB =
      [ModelCall.transformB (List.zip
        ["gravida", "parity", "gestational age (weeks)", "Age (yrs)",
         "BMI  [kg/m²]", "diabetes", "History of hypertension (y/n)",
         "Systolic BP", "Diastolic BP", "HB", "fetal weight(kgs)",
         "Protien Uria", "amniotic fluid levels(cm)"]
        [sampleData.gravida, sampleData.parity, sampleData.gestational_age_weeks,
         sampleData.Age, sampleData.BMI, (sampleData.diabetes : ℚ),
         (sampleData.hypertension : ℚ), sampleData.SystolicBP,
         sampleData.DiastolicBP, sampleData.HB, sampleData.fetal_weight,
         (sampleData.Protien_Uria : ℚ), sampleData.amniotic_fluid_levels])] ∧
    (x_b sampleData).length = 13 :=
  c2_high_risk_invokes_stage_b_once okScaler zeroModel okScaler zeroModel okGen
    sampleData [0] 0 rfl rfl rfl

/-- C3: the class-id-to-label mappings are the fixed non-ordinal tables
(Stage A: 1 → "low risk", 2 → "mid risk", 0 → "high risk"; Stage B:
1 → "low", 2 → "mid", 0 → "high"), and every id outside {0,1,2} maps to
"unknown" in both tables rather than failing. -/
theorem c3_class_id_label_maps :
    risk_map 1 = "low risk" ∧ risk_map 2 = "mid risk" ∧
    risk_map 0 = "high risk" ∧
    disease_map 1 = "low" ∧ disease_map 2 = "mid" ∧ disease_map 0 = "high" ∧
    ∀ i : ℤ, i ≠ 0 → i ≠ 1 → i ≠ 2 →
      risk_map i = "unknown" ∧ disease_map i = "unknown" := by
  refine ⟨rfl, rfl, rfl, rfl, rfl, rfl, fun i h0 h1 h2 => ⟨?_, ?_⟩⟩
  · unfold risk_map
    rw [if_neg h1, if_neg h2, if_neg h0]
  · unfold disease_map
    rw [if_neg h1, if_neg h2, if_neg h0]

/-- C3 witness: the out-of-range id 5 maps to "unknown" in both tables. -/
theorem c3_witness : risk_map 5 = "unknown" ∧ disease_map 5 = "unknown" :=
  c3_class_id_label_maps.2.2.2.2.2.2 5 (by decide) (by decide) (by decide)

/-- C4: when Stage B runs, Disease_Probability is the probability-vector entry
at the predicted class index, multiplied by 100 and formatted with exactly one
decimal place by rounding; in particular 0.8342 formats to "83.4%" and 0.657
formats to "65.7%". -/
theorem c4_disease_probability_formatting (sA : Scaler) (mA : Model) (sB : Scaler)
    (mB : Model) (gen : String → String → Except String HealthPlan)
    (data : PredictionRequest) (va vb : List ℚ) (rp d : ℤ) (probs : List ℚ) (p : ℚ)
    (hA : sA.transform (x_a data) = Except.ok va)
    (hP : mA.predict va = Except.ok rp)
    (hlab : risk_map rp = "high risk")
    (hB : sB.transform (x_b data) = Except.ok vb)
    (hPB : mB.predict vb = Except.ok d)
    (hProba : mB.predict_proba vb = Except.ok probs)
    (hIdx : npIndex probs d = Except.ok p) :
    (api_predict sA mA sB mB gen data).fst =
      ApiResponse.ok ⟨"high risk", disease_map d, formatPct p,
        generate_health_plan gen "high risk" (disease_map d)⟩ ∧
    formatPct (8342 / 10000) = "83.4%" ∧ formatPct (657 / 1000) = "65.7%" := by
  have hc := classify_high_ok sA mA sB mB data va vb rp d probs p
    hA hP hlab hB hPB hProba hIdx
  refine ⟨?_, formatPct_eval_8342, formatPct_eval_657⟩
  rw [api_predict_of_classify_ok sA mA sB mB gen data _ _ hc]
  rw [show (⟨risk_map rp, disease_map d, formatPct p⟩ : ClassifyResult).Risk_Level
        = risk_map rp from rfl, hlab]

/-- C4 witness: the specification's scenario 2 — Stage A predicts 0, Stage B
predicts 2 with probability 0.657 at index 2, yielding "mid" and "65.7%". -/
theorem c4_witness :
    (api_predict okScaler zeroModel okScaler midModelB okGen sampleData).fst =
      ApiResponse.ok ⟨"high risk", disease_map 2, formatPct (657 / 1000),
        generate_health_plan okGen "high risk" (disease_map 2)⟩ ∧
    formatPct (8342 / 10000) = "83.4%" ∧ formatPct (657 / 1000) = "65.7%" :=
  c4_disease_probability_formatting okScaler zeroModel okScaler midModelB okGen
    sampleData [0] [0] 0 2 [343 / 2000, 343 / 2000, 657 / 1000] (657 / 1000)
    rfl rfl rfl rfl rfl rfl rfl

/-- C5: the body-temperature feature fed to Stage A (the fifth column of the
Stage-A frame, named "BodyTemp") is derived from the Celsius input by exactly
BodyTemp × 9/5 + 32, and 37.0 °C yields exactly 98.6 °F. -/
theorem c5_fahrenheit_conversion (sA : Scaler) (mA : Model) (sB : Scaler)
    (mB : Model) (gen : String → String → Except String HealthPlan)
    (data : PredictionRequest) :
    (∃ rest, (api_predict sA mA sB mB gen data).snd
      = ModelCall.transformA (x_a data) :: rest) ∧
    (x_a data).get? 4 = some ("BodyTemp", data.BodyTemp * 9 / 5 + 32) ∧
    body_temp_fahrenheit 37 = 98.6 := by
  refine ⟨?_, rfl, ?_⟩
  · rw [api_predict_snd]
    exact classify_snd_head sA mA sB mB data
  · unfold body_temp_fahrenheit
    norm_num

/-- C6: Stage A is applied to the ordered 7-tuple
(Age, SystolicBP, DiastolicBP, BS, BodyTempFahrenheit, HeartRate,
PulsePressure): every run's trace begins with the Stage-A transform call on
exactly this frame, the derived Fahrenheit value in the fifth position. -/
theorem c6_stage_a_feature_order (sA : Scaler) (mA : Model) (sB : Scaler)
    (mB : Model) (gen : String → String → Except String HealthPlan)
    (data : PredictionRequest) :
    ∃ rest, (api_predict sA mA sB mB gen data).snd =
      ModelCall.transformA
        [("Age", data.Age), ("SystolicBP", data.SystolicBP),
         ("DiastolicBP", data.DiastolicBP), ("BS", data.BS),
         ("BodyTemp", body_temp_fahrenheit data.BodyTemp),
         ("HeartRate", data.HeartRate),
         ("PulsePressure", data.PulsePressure)] :: rest := by
  rw [api_predict_snd]
  exact classify_snd_head sA mA sB mB data

/-- C7: a failure of the external plan generator never fails classification:
if every generation call raises, `generate_health_plan` returns the fixed
safe-default plan, and the endpoint still returns the success payload with the
computed Risk_Level, Disease_Status and Disease_Probability unchanged. -/
theorem c7_generator_failure_safe (sA : Scaler) (mA : Model) (sB : Scaler)
    (mB : Model) (data : PredictionRequest)
    (gen : String → String → Except String HealthPlan) (msg : String)
    (hfail : ∀ r d, gen r d = Except.error msg) :
    (∀ r d, generate_health_plan gen r d = fallback_plan) ∧
    (∀ c tr, classify sA mA sB mB data = (Except.ok c, tr) →
      (api_predict sA mA sB mB gen data).fst =
        ApiResponse.ok ⟨c.Risk_Level, c.Disease_Status, c.Disease_Probability,
          fallback_plan⟩) := by
  have hgen : ∀ r d, generate_health_plan gen r d = fallback_plan := by
    intro r d
    unfold generate_health_plan
    rw [hfail r d]
  refine ⟨hgen, fun c tr h => ?_⟩
  rw [api_predict_of_classify_ok sA mA sB mB gen data c tr h]
  rw [show (ApiResponse.ok ⟨c.Risk_Level, c.Disease_Status, c.Disease_Probability,
        generate_health_plan gen c.Risk_Level c.Disease_Status⟩,
        tr).fst = ApiResponse.ok ⟨c.Risk_Level, c.Disease_Status,
        c.Disease_Probability,
        generate_health_plan gen c.Risk_Level c.Disease_Status⟩ from rfl]
  rw [hgen]

/-- C7 witness: with a generator that always fails, the plan is the fixed
safe default and the classification payload is still returned intact. -/
theorem c7_witness :
    generate_health_plan failGen "high risk" "mid" = fallback_plan ∧
    (api_predict okScaler oneModel okScaler oneModel failGen sampleData).fst =
      ApiResponse.ok ⟨"low risk", "N/A", "0%", fallback_plan⟩ := by
  have h := c7_generator_failure_safe okScaler oneModel okScaler oneModel
    sampleData failGen "boom" (fun _ _ => rfl)
  exact ⟨h.1 "high risk" "mid",
    h.2 ⟨"low risk", "N/A", "0%"⟩
      [ModelCall.transformA (x_a sampleData), ModelCall.predictA [0]] rfl⟩

/-- C8: the pipeline is deterministic and idempotent — with identical input
and unchanged model handles, two calls yield identical output (it is a pure
function of the input and the handles; the embedding threads no state). -/
theorem c8_classify_deterministic (sA : Scaler) (mA : Model) (sB : Scaler)
    (mB : Model) (gen : String → String → Except String HealthPlan)
    (data : PredictionRequest) :
    api_predict sA mA sB mB gen data = api_predict sA mA sB mB gen data ∧
    classify sA mA sB mB data = classify sA mA sB mB data :=
  ⟨rfl, rfl⟩

/-- C9: classification is all-or-nothing. A request failing validation is
rejected with the explicit error payload before the pipeline runs; whenever
any step of the pipeline fails, the caller receives the explicit error
payload; a success payload is never partial or fabricated — it is exactly the
computed classification of a validated request; and every individual step
failure (Stage-A scaler, Stage-A predict, Stage-B scaler, Stage-B predict,
Stage-B probabilities, probability indexing) makes the pipeline fail with
that error. -/
theorem c9_all_or_nothing (sA : Scaler) (mA : Model) (sB : Scaler) (mB : Model)
    (gen : String → String → Except String HealthPlan) (raw : RawRequest) :
    (∀ e, parseRequest raw = Except.error e →
      api_endpoint sA mA sB mB gen raw = (ApiResponse.error e, [])) ∧
    (∀ data e, parseRequest raw = Except.ok data →
      (classify sA mA sB mB data).fst = Except.error e →
      (api_endpoint sA mA sB mB gen raw).fst = ApiResponse.error e) ∧
    (∀ res, (api_endpoint sA mA sB mB gen raw).fst = ApiResponse.ok res →
      ∃ data c tr, parseRequest raw = Except.ok data ∧
        classify sA mA sB mB data = (Except.ok c, tr) ∧
        res = ⟨c.Risk_Level, c.Disease_Status, c.Disease_Probability,
               generate_health_plan gen c.Risk_Level c.Disease_Status⟩) ∧
    (∀ data e, sA.transform (x_a data) = Except.error e →
      (classify sA mA sB mB data).fst = Except.error e) ∧
    (∀ data va e, sA.transform (x_a data) = Except.ok va →
      mA.predict va = Except.error e →
      (classify sA mA sB mB data).fst = Except.error e) ∧
    (∀ data va rp e, sA.transform (x_a data) = Except.ok va →
      mA.predict va = Except.ok rp → risk_map rp = "high risk" →
      sB.transform (x_b data) = Except.error e →
      (classify sA mA sB mB data).fst = Except.error e) ∧
    (∀ data va rp vb e, sA.transform (x_a data) = Except.ok va →
      mA.predict va = Except.ok rp → risk_map rp = "high risk" →
      sB.transform (x_b data) = Except.ok vb →
      mB.predict vb = Except.error e →
      (classify sA mA sB mB data).fst = Except.error e) ∧
    (∀ data va rp vb d e, sA.transform (x_a data) = Except.ok va →
      mA.predict va = Except.ok rp → risk_map rp = "high risk" →
      sB.transform (x_b data) = Except.ok vb →
      mB.predict vb = Except.ok d →
      mB.predict_proba vb = Except.error e →
      (classify sA mA sB mB data).fst = Except.error e) ∧
    (∀ data va rp vb d probs e, sA.transform (x_a data) = Except.ok va →
      mA.predict va = Except.ok rp → risk_map rp = "high risk" →
      sB.transform (x_b data) = Except.ok vb →
      mB.predict vb = Except.ok d →
      mB.predict_proba vb = Except.ok probs →
      npIndex probs d = Except.error e →
      (classify sA mA sB mB data).fst = Except.error e) := by
  refine ⟨?_, ?_, ?_, ?_, ?_, ?_, ?_, ?_, ?_⟩
  · intro e he
    unfold api_endpoint
    simp only [he]
  · intro data e hd hcf
    unfold api_endpoint
    simp only [hd]
    exact api_predict_fst_error sA mA sB mB gen data e hcf
  · intro res hres
    unfold api_endpoint api_predict at hres
    cases hp : parseRequest raw with
    | error e =>
      rw [hp] at hres
      simp at hres
    | ok data =>
      rw [hp] at hres
      dsimp only at hres
      refine ⟨data, ?_⟩
      rcases hc : classify sA mA sB mB data with ⟨r, tr⟩
      rw [hc] at hres
      cases r with
      | error e => simp at hres
      | ok c =>
        refine ⟨c, tr, rfl, rfl, ?_⟩
        simpa using hres.symm
  · intro data e hs
    rw [classify_stage_a_unavailable sA mA sB mB data e hs]
  · intro data va e hA hP
    unfold classify
    simp [hA, hP]
  · intro data va rp e hA hP hlab hB
    unfold classify
    simp [hA, hP, hlab, hB]
  · intro data va rp vb e hA hP hlab hB hPB
    unfold classify
    simp [hA, hP, hlab, hB, hPB]
  · intro data va rp vb d e hA hP hlab hB hPB hProba
    unfold classify
    simp [hA, hP, hlab, hB, hPB, hProba]
  · intro data va rp vb d probs e hA hP hlab hB hPB hProba hIdx
    unfold classify
    simp [hA, hP, hlab, hB, hPB, hProba, hIdx]

/-- C9 witness: a raw request with every field missing is rejected with the
explicit error payload before the pipeline runs, and a valid request whose
Stage-B probability call fails yields the explicit error payload, no partial
result. -/
theorem c9_witness :
    api_endpoint okScaler oneModel okScaler oneModel okGen rawNone =
      (ApiResponse.error "field required", []) ∧
    (api_endpoint okScaler zeroModel okScaler noProbaModel okGen rawSample).fst
      = ApiResponse.error "proba unavailable" :=
  ⟨(c9_all_or_nothing okScaler oneModel okScaler oneModel okGen rawNone).1
      "field required" rfl,
   (c9_all_or_nothing okScaler zeroModel okScaler noProbaModel okGen
      rawSample).2.1 sampleData "proba unavailable" rfl rfl⟩

/-- C10: the Stage-B trained-feature slot "Age (yrs)" is populated from the
same Age field used by Stage A: in every request's frames, the "Age (yrs)"
column of the Stage-B frame and the "Age" column of the Stage-A frame both
hold `data.Age`, and "Age (yrs)" occurs exactly once among the trained
Stage-B feature names (there is no separate age input for Stage B). -/
theorem c10_age_slot_reuse (data : PredictionRequest) :
    (x_b data).lookup "Age (yrs)" = some data.Age ∧
    (x_a data).lookup "Age" = some data.Age ∧
    FEATURES_B.count "Age (yrs)" = 1 :=
  ⟨rfl, rfl, by decide⟩

end CareBloom
